import Mathlib

/-!
Verification of the graph-routes layer of LightRAG-Multi
(src/lightrag/api/new/new_routers/graph_routes.py) against its
natural-language specification.

The route handlers themselves are embedded directly from the Python source.
The store operations they delegate to (`rag.aedit_entity`,
`rag.adelete_by_entity`, `rag.chunk_entity_relation_graph.*`,
`rag.relationships_vdb.*`) live elsewhere in the repository and are not part
of the given source region; those are modelled from the specification
(sections 4.1 to 4.3) and each such definition is marked accordingly.
-/

set_option maxHeartbeats 1000000

/-- A JSON-like value, used for the `data : Any` field of the response
envelope and for the dict payloads the Python routes build. Object fields
keep insertion order, matching Python dict semantics. -/
inductive JsonVal where
  | null : JsonVal
  | str : String → JsonVal
  | int : Int → JsonVal
  | obj : List (String × JsonVal) → JsonVal
  | arr : List JsonVal → JsonVal

/-- Lookup of a key in a JSON object; `none` for non-objects or absent keys. -/
def JsonVal.lookup : JsonVal → String → Option JsonVal
  | .obj fields, k => (fields.find? (fun p => p.1 == k)).map (fun p => p.2)
  | _, _ => none

/-- The response envelope of graph_routes.py: `DataResponse(code, message, data)`. -/
structure DataResponse where
  code : Int
  message : String
  data : JsonVal

/-- `HTTPException(status_code, detail)` as raised by the route handlers. -/
structure HTTPException where
  status_code : Nat
  detail : String
deriving DecidableEq, Repr

/-- An exception raised by an underlying store call; `str` gives the Python
`str(e)` rendering the handlers put into the HTTP error detail. -/
inductive StoreExc where
  | exc : String → StoreExc
deriving DecidableEq, Repr

def StoreExc.str : StoreExc → String
  | .exc m => m

/-- Attributes of an entity (node): all optional, per the data model. -/
structure EntityFields where
  entity_type : Option String
  description : Option String
  source_id : Option String
deriving DecidableEq, Repr

def EntityFields.empty : EntityFields := ⟨none, none, none⟩

/-- Attributes of a relation (edge): all optional, per the data model. -/
structure EdgeFields where
  weight : Option Int
  keywords : Option String
  description : Option String
  source_id : Option String
deriving DecidableEq, Repr

/-- The `node_data` dict built by the `update_entity` handler. The
`entity_name` field is `none` exactly when the Python dict lacks the key
(the handler only inserts it with a truthy, hence non-empty, value). -/
structure NodeData where
  entity_type : Option String
  description : Option String
  source_id : Option String
  entity_name : Option String
deriving DecidableEq, Repr

/-- The `entity_data` request dict of `update_entity`: optional keys read
with `dict.get(key, None)`. -/
structure EntityData where
  entity_name : Option String
  entity_type : Option String
  description : Option String
  source_id : Option String
deriving DecidableEq, Repr

/-- Python truthiness of an optional string: `None` and `""` are falsy. -/
def isTruthy : Option String → Bool
  | none => false
  | some s => s ≠ ""

/-- Modelled from the spec: the GraphStore component (section 4.1), which is
not under the given source region. Nodes are entities keyed by name, edges
are relations keyed by the ordered (source, target) pair; both kept as
association lists whose first matching entry is the record. -/
structure GraphStore where
  nodes : List (String × EntityFields)
  edges : List (String × String × EdgeFields)
deriving DecidableEq, Repr

/-- Modelled from the spec: `getNode(id)` point lookup, absence is not an
error (section 4.1). -/
def GraphStore.get_node (g : GraphStore) (id : String) : Option EntityFields :=
  (g.nodes.find? (fun p => p.1 == id)).map (fun p => p.2)

/-- Modelled from the spec: `getEdge(src, tgt)` point lookup by ordered
pair, absence is not an error (section 4.1). -/
def GraphStore.get_edge (g : GraphStore) (src tgt : String) : Option EdgeFields :=
  (g.edges.find? (fun e => e.1 == src && e.2.1 == tgt)).map (fun e => e.2.2)

/-- Modelled from the spec: `getNodeEdges(id)`, all edges incident to `id`
in either direction (section 4.1). -/
def GraphStore.get_node_edges (g : GraphStore) (id : String) :
    List (String × String × EdgeFields) :=
  g.edges.filter (fun e => e.1 == id || e.2.1 == id)

/-- Merge rule from the spec (sections 4.1 and 9): a present-and-non-null
field overwrites, a null/absent field leaves the stored value unchanged. -/
def mergeOpt (old new : Option String) : Option String :=
  match new with
  | some v => some v
  | none => old

/-- Merge a partial-update payload into stored entity fields; the payload's
`entity_name` is identity, not an attribute, and is ignored here. -/
def EntityFields.merge (old : EntityFields) (nd : NodeData) : EntityFields :=
  { entity_type := mergeOpt old.entity_type nd.entity_type
    description := mergeOpt old.description nd.description
    source_id := mergeOpt old.source_id nd.source_id }

/-- Modelled from the spec: `upsertNode(id, fields)` creates if absent,
merges provided non-null fields otherwise (section 4.1). -/
def GraphStore.upsertNode (g : GraphStore) (id : String) (nd : NodeData) : GraphStore :=
  match g.get_node id with
  | some _ =>
      { g with nodes := g.nodes.map (fun p => if p.1 == id then (id, p.2.merge nd) else p) }
  | none => { g with nodes := g.nodes ++ [(id, EntityFields.empty.merge nd)] }

/-- Modelled from the spec: `renameNode(oldId, newId)` changes the key,
fails with `ConflictError` if `newId` already exists as a different node,
and re-points all incident edges (section 4.1). The spec leaves a rename of
an absent node unspecified; the model raises, and no claim exercises it. -/
def GraphStore.renameNode (g : GraphStore) (oldId newId : String) :
    Except StoreExc GraphStore :=
  if (g.get_node newId).isSome then .error (.exc "ConflictError")
  else
    match g.get_node oldId with
    | none => .error (.exc ("KeyError: " ++ oldId))
    | some fields =>
        .ok { nodes := g.nodes.filter (fun p => p.1 != oldId) ++ [(newId, fields)]
              edges := g.edges.map (fun e =>
                ((if e.1 == oldId then newId else e.1),
                 (if e.2.1 == oldId then newId else e.2.1), e.2.2)) }

/-- Modelled from the spec: `removeNode(id)` deletes the node and all
incident edges, idempotently (section 4.1). Returns the store together with
the (src, tgt) keys of the cascaded edges, which `DeleteEntity` also removes
from the vector index (section 4.3). -/
def GraphStore.removeNode (g : GraphStore) (id : String) :
    GraphStore × List (String × String) :=
  ({ nodes := g.nodes.filter (fun p => p.1 != id)
     edges := g.edges.filter (fun e => !(e.1 == id || e.2.1 == id)) },
   (g.edges.filter (fun e => e.1 == id || e.2.1 == id)).map (fun e => (e.1, e.2.1)))

/-- The `remove_edges` call of the graph store, modelled from the spec's
`removeEdge(src, tgt)` lifted to the list the handler passes: deletes each
listed directed edge, idempotently (section 4.1). -/
def GraphStore.remove_edges (g : GraphStore) (pairs : List (String × String)) : GraphStore :=
  { g with edges := g.edges.filter (fun e => !(pairs.contains (e.1, e.2.1))) }

/-- Modelled from the spec: the composite key of a relation, formed by
combining the source and target entity names (glossary); the handler that
surfaces a relation id uses `src + "_" + tgt`. -/
def compositeKey (src tgt : String) : String := src ++ "_" ++ tgt

/-- Modelled from the spec: the VectorIndex component (section 4.2), a set
of keys that currently have an embedding, kept as a list. -/
def vdbDelete (keys : List String) (k : String) : List String :=
  keys.filter (fun x => x != k)

/-- Modelled from the spec: `relationships_vdb.delete_entity_relation_by_nodes`,
which removes the embedding keyed by the relation's composite key; no-op if
absent (section 4.2). -/
def vdbDeleteRelationByNodes (keys : List String) (src tgt : String) : List String :=
  vdbDelete keys (compositeKey src tgt)

/-- The shared state the handlers receive through `rag`: the graph store and
the relation vector index. -/
structure RagState where
  graph : GraphStore
  vdb : List String
deriving DecidableEq, Repr

/-- Modelled from the spec: `rag.aedit_entity(name, node_data)`
(ConsistencyCoordinator UpdateEntity, step 2, section 4.3). If a rename is
requested and the new name differs, rename then upsert the other fields
under the new name; otherwise upsert in place. -/
def aedit_entity (g : GraphStore) (name : String) (nd : NodeData) :
    Except StoreExc GraphStore :=
  match nd.entity_name with
  | some newName =>
      if newName ≠ name then
        match g.renameNode name newName with
        | .error e => .error e
        | .ok g1 => .ok (g1.upsertNode newName nd)
      else .ok (g.upsertNode name nd)
  | none => .ok (g.upsertNode name nd)

/-- Modelled from the spec: `rag.adelete_by_entity(name)`
(ConsistencyCoordinator DeleteEntity, section 4.3): remove the node with
edge cascade, then delete the entity key and every cascaded edge key from
the vector index, then commit. -/
def adelete_by_entity (st : RagState) (name : String) : RagState :=
  let r := st.graph.removeNode name
  let v1 := vdbDelete st.vdb name
  let v2 := r.2.foldl (fun acc p => vdbDelete acc (compositeKey p.1 p.2)) v1
  { graph := r.1, vdb := v2 }

/-- JSON rendering of an optional string: Python `None` becomes JSON null. -/
def jsonOfOptStr : Option String → JsonVal
  | none => .null
  | some s => .str s

def jsonOfOptInt : Option Int → JsonVal
  | none => .null
  | some n => .int n

def EntityFields.toJson (f : EntityFields) : JsonVal :=
  .obj [("entity_type", jsonOfOptStr f.entity_type),
        ("description", jsonOfOptStr f.description),
        ("source_id", jsonOfOptStr f.source_id)]

def EdgeFields.toJson (f : EdgeFields) : JsonVal :=
  .obj [("weight", jsonOfOptInt f.weight),
        ("keywords", jsonOfOptStr f.keywords),
        ("description", jsonOfOptStr f.description),
        ("source_id", jsonOfOptStr f.source_id)]

def jsonOfOptEntity : Option EntityFields → JsonVal
  | none => .null
  | some f => f.toJson

def jsonOfOptEdge : Option EdgeFields → JsonVal
  | none => .null
  | some f => f.toJson

/-- Modelled from the spec: `chunk_entity_relation_graph.query_all()`, the
full `{nodes, edges}` snapshot enumeration (section 4.1). -/
def GraphStore.query_all (g : GraphStore) : JsonVal :=
  .obj [("nodes", .arr (g.nodes.map (fun p =>
          .obj (("id", .str p.1) :: [("entity_type", jsonOfOptStr p.2.entity_type),
                                     ("description", jsonOfOptStr p.2.description),
                                     ("source_id", jsonOfOptStr p.2.source_id)])))),
        ("edges", .arr (g.edges.map (fun e =>
          .obj (("source", .str e.1) :: ("target", .str e.2.1) ::
                [("weight", jsonOfOptInt e.2.2.weight),
                 ("keywords", jsonOfOptStr e.2.2.keywords),
                 ("description", jsonOfOptStr e.2.2.description),
                 ("source_id", jsonOfOptStr e.2.2.source_id)]))))]

namespace graph_routes

/-- The `node_data` dict built at lines 65 to 72 of the handler: the three
attribute keys always present (None when absent from the request), and
`entity_name` added exactly when the request value is truthy. -/
def mkNodeData (entity_data : EntityData) : NodeData :=
  { entity_type := entity_data.entity_type
    description := entity_data.description
    source_id := entity_data.source_id
    entity_name := if isTruthy entity_data.entity_name then entity_data.entity_name else none }

/-- The response `data` dict built at line 76: `{"id": n, "label": n,
**node_data}`, with Python dict insertion order. -/
def updateEntityData (n : String) (nd : NodeData) : JsonVal :=
  .obj ([("id", .str n), ("label", .str n),
         ("entity_type", jsonOfOptStr nd.entity_type),
         ("description", jsonOfOptStr nd.description),
         ("source_id", jsonOfOptStr nd.source_id)] ++
        (match nd.entity_name with
         | some m => [("entity_name", .str m)]
         | none => []))

/-- The tail of the `update_entity` handler given the outcome of the
`rag.aedit_entity` store call, embedding lines 74 to 79: on success,
line 75 reassigns `new_entity_name = entity_name`, so the returned id and
label are the path parameter; on exception, `HTTPException(500, str(e))`. -/
def update_entity_run (st : RagState) (entity_name : String) (entity_data : EntityData)
    (storeResult : Except StoreExc GraphStore) :
    Except HTTPException (RagState × DataResponse) :=
  match storeResult with
  | .error e => .error ⟨500, e.str⟩
  | .ok g1 =>
      let new_entity_name := entity_name
      .ok ({ st with graph := g1 },
           ⟨0, "ok", updateEntityData new_entity_name (mkNodeData entity_data)⟩)

/-- PUT /graph/entity/\x7bentity_name\x7d, lines 54 to 79. -/
def update_entity (st : RagState) (entity_name : String) (entity_data : EntityData) :
    Except HTTPException (RagState × DataResponse) :=
  update_entity_run st entity_name entity_data
    (aedit_entity st.graph entity_name (mkNodeData entity_data))

/-- DELETE /graph/entity/\x7bentity_name\x7d, lines 87 to 93: delegate to
`rag.adelete_by_entity` and answer `DataResponse(0, "ok", None)`. -/
def delete_entity (st : RagState) (entity_name : String) :
    Except HTTPException (RagState × DataResponse) :=
  .ok (adelete_by_entity st entity_name, ⟨0, "ok", .null⟩)

/-- DELETE /graph/relation/by_nodes, lines 141 to 155: delete the relation's
vector entry, remove the edge from the graph store, run both index-done
barriers, answer `DataResponse(0, "ok", "")`. -/
def delete_relation_by_nodes (st : RagState) (src tgt : String) :
    Except HTTPException (RagState × DataResponse) :=
  let v1 := vdbDeleteRelationByNodes st.vdb src tgt
  let g1 := st.graph.remove_edges [(src, tgt)]
  .ok ({ graph := g1, vdb := v1 }, ⟨0, "ok", .str ""⟩)

/-- GET /graph/entity/\x7bentity_name\x7d, lines 163 to 168. -/
def get_node (st : RagState) (entity_name : String) : Except HTTPException DataResponse :=
  .ok ⟨0, "ok", jsonOfOptEntity (st.graph.get_node entity_name)⟩

/-- GET /graph/relation/by_nodes, lines 176 to 185. -/
def get_relation_by_nodes (st : RagState) (src tgt : String) :
    Except HTTPException DataResponse :=
  .ok ⟨0, "ok", jsonOfOptEdge (st.graph.get_edge src tgt)⟩

/-- GET /graph/entity, lines 206 to 218: wrap the `query_all` snapshot. -/
def get_graph_entity_list (st : RagState) : Except HTTPException DataResponse :=
  .ok ⟨0, "ok", st.graph.query_all⟩

/-- GET /graph/data, lines 226 to 233: wrap the `query_all` snapshot. -/
def get_graph_data (st : RagState) : Except HTTPException DataResponse :=
  .ok ⟨0, "ok", st.graph.query_all⟩

/-- One store call made by the `delete_relation_by_nodes` handler, in the
order the source issues them (lines 145 to 152). -/
inductive StoreEvent where
  | vdbDeleteRel : String → String → StoreEvent
  | graphRemoveEdges : List (String × String) → StoreEvent
  | vdbCommit : StoreEvent
  | graphCommit : StoreEvent
deriving DecidableEq, Repr

/-- Injectable outcomes for the four store calls of
`delete_relation_by_nodes`, letting any call raise. -/
structure DeleteRelationOutcomes where
  vdbDeleteRes : Except StoreExc Unit
  removeEdgesRes : Except StoreExc Unit
  vdbCommitRes : Except StoreExc Unit
  graphCommitRes : Except StoreExc Unit

/-- The canonical event sequence of `delete_relation_by_nodes`: vector
delete of the composite key, graph edge removal, vector commit barrier,
graph commit barrier. -/
def deleteRelationEvents (src tgt : String) : List StoreEvent :=
  [.vdbDeleteRel src tgt, .graphRemoveEdges [(src, tgt)], .vdbCommit, .graphCommit]

/-- The `delete_relation_by_nodes` handler (lines 141 to 155) instrumented
with the trace of store calls it issues, under injectable store outcomes:
each call is recorded when issued; the first exception aborts the rest of
the body and is re-raised as `HTTPException(500, str(e))`; success is
returned only after all four calls. -/
def delete_relation_by_nodes_run (src tgt : String) (o : DeleteRelationOutcomes) :
    List StoreEvent × Except HTTPException DataResponse :=
  let e1 := StoreEvent.vdbDeleteRel src tgt
  match o.vdbDeleteRes with
  | .error ex => ([e1], .error ⟨500, ex.str⟩)
  | .ok _ =>
    let e2 := StoreEvent.graphRemoveEdges [(src, tgt)]
    match o.removeEdgesRes with
    | .error ex => ([e1, e2], .error ⟨500, ex.str⟩)
    | .ok _ =>
      match o.vdbCommitRes with
      | .error ex => ([e1, e2, .vdbCommit], .error ⟨500, ex.str⟩)
      | .ok _ =>
        match o.graphCommitRes with
        | .error ex => ([e1, e2, .vdbCommit, .graphCommit], .error ⟨500, ex.str⟩)
        | .ok _ => ([e1, e2, .vdbCommit, .graphCommit], .ok ⟨0, "ok", .str ""⟩)

end graph_routes

/-- Whether `pat` is a prefix of `s`, on character lists. -/
def startsWithChars : List Char → List Char → Bool
  | _, [] => true
  | [], _ :: _ => false
  | a :: as, b :: bs => a == b && startsWithChars as bs

/-- Whether `pat` occurs somewhere inside `s`, on character lists. -/
def hasSubstringChars : List Char → List Char → Bool
  | [], pat => pat.isEmpty
  | a :: as, pat => startsWithChars (a :: as) pat || hasSubstringChars as pat

/-- Whether `pat` occurs as a substring of `s`. -/
def containsSubstr (s pat : String) : Bool :=
  hasSubstringChars s.toList pat.toList

/-- The `relation_data` request dict of `update_relation_by_nodes`: optional
keys read with `dict.get(key, None)` (lines 110 to 113). -/
structure RelationData where
  weight : Option Int
  keywords : Option String
  description : Option String
  source_id : Option String
deriving DecidableEq, Repr

namespace graph_routes

/-- The response `data` dict built at lines 125 to 130: `{"id": src+"_"+tgt,
"source": src, "target": tgt, **edge_data}`, with the `edge_data` dict in
its insertion order weight, description, keywords, source_id. -/
def updateRelationData (src tgt : String) (rd : RelationData) : JsonVal :=
  .obj [("id", .str (src ++ "_" ++ tgt)), ("source", .str src), ("target", .str tgt),
        ("weight", jsonOfOptInt rd.weight),
        ("description", jsonOfOptStr rd.description),
        ("keywords", jsonOfOptStr rd.keywords),
        ("source_id", jsonOfOptStr rd.source_id)]

/-- The `update_relation_by_nodes` handler (lines 101 to 133) given the
outcome of its single store call `rag.aedit_relation`: on success, wrap the
response dict; on exception, `HTTPException(500, str(e))`. -/
def update_relation_by_nodes_run (st : RagState) (src tgt : String) (rd : RelationData)
    (storeResult : Except StoreExc GraphStore) :
    Except HTTPException (RagState × DataResponse) :=
  match storeResult with
  | .error e => .error ⟨500, e.str⟩
  | .ok g1 => .ok ({ st with graph := g1 }, ⟨0, "ok", updateRelationData src tgt rd⟩)

/-- The `delete_entity` handler (lines 87 to 93) given the outcome of its
single store call `rag.adelete_by_entity`: on success,
`DataResponse(0, "ok", None)`; on exception, `HTTPException(500, str(e))`. -/
def delete_entity_run (st : RagState) (entity_name : String)
    (storeResult : Except StoreExc RagState) :
    Except HTTPException (RagState × DataResponse) :=
  match storeResult with
  | .error e => .error ⟨500, e.str⟩
  | .ok st1 => .ok (st1, ⟨0, "ok", .null⟩)

/-- The `get_node` handler (lines 163 to 168) given the outcome of its
single store call `chunk_entity_relation_graph.get_node`. -/
def get_node_run (storeResult : Except StoreExc (Option EntityFields)) :
    Except HTTPException DataResponse :=
  match storeResult with
  | .error e => .error ⟨500, e.str⟩
  | .ok node => .ok ⟨0, "ok", jsonOfOptEntity node⟩

/-- The `get_relation_by_nodes` handler (lines 176 to 185) given the outcome
of its single store call `chunk_entity_relation_graph.get_edge`. -/
def get_relation_by_nodes_run (storeResult : Except StoreExc (Option EdgeFields)) :
    Except HTTPException DataResponse :=
  match storeResult with
  | .error e => .error ⟨500, e.str⟩
  | .ok relation => .ok ⟨0, "ok", jsonOfOptEdge relation⟩

/-- Rendering of a `get_node_edges` result, modelled from the spec's
`getNodeEdges` output shape (section 4.1). -/
def jsonOfNodeEdges (l : List (String × String × EdgeFields)) : JsonVal :=
  .arr (l.map (fun e =>
    .obj [("source", .str e.1), ("target", .str e.2.1),
          ("weight", jsonOfOptInt e.2.2.weight),
          ("keywords", jsonOfOptStr e.2.2.keywords),
          ("description", jsonOfOptStr e.2.2.description),
          ("source_id", jsonOfOptStr e.2.2.source_id)]))

/-- The `get_relation_by_node` handler (lines 193 to 198) given the outcome
of its single store call `chunk_entity_relation_graph.get_node_edges`. -/
def get_relation_by_node_run
    (storeResult : Except StoreExc (List (String × String × EdgeFields))) :
    Except HTTPException DataResponse :=
  match storeResult with
  | .error e => .error ⟨500, e.str⟩
  | .ok relations => .ok ⟨0, "ok", jsonOfNodeEdges relations⟩

/-- The `get_graph_entity_list` handler (lines 206 to 218) given the outcome
of its single store call `chunk_entity_relation_graph.query_all`. -/
def get_graph_entity_list_run (storeResult : Except StoreExc JsonVal) :
    Except HTTPException DataResponse :=
  match storeResult with
  | .error e => .error ⟨500, e.str⟩
  | .ok entities => .ok ⟨0, "ok", entities⟩

/-- The `get_graph_data` handler (lines 226 to 233) given the outcome of its
single store call `chunk_entity_relation_graph.query_all`. -/
def get_graph_data_run (storeResult : Except StoreExc JsonVal) :
    Except HTTPException DataResponse :=
  match storeResult with
  | .error e => .error ⟨500, e.str⟩
  | .ok entities => .ok ⟨0, "ok", entities⟩

end graph_routes

/-- C2: the ListEntities handler and the GetGraphData handler return
structurally equal response payloads for every identical underlying store
state: both wrap the same `query_all` snapshot in the same envelope. -/
theorem listEntities_eq_getGraphData (st : RagState) :
    graph_routes.get_graph_entity_list st = graph_routes.get_graph_data st := rfl

/-- C1 counterexample: a successful rename request. Store holds entity "A";
the request carries a non-empty `entity_name` "A2" different from "A", so
the claim requires the returned id to be "A2" — but the handler returns
id "A" (line 75 reassigns `new_entity_name = entity_name` before building
the response), so the claim fails at this input. -/
theorem update_entity_rename_returns_old_id :
    graph_routes.update_entity ⟨⟨[("A", ⟨none, none, none⟩)], []⟩, []⟩ "A"
        ⟨some "A2", none, none, none⟩
      = .ok (⟨⟨[("A2", ⟨none, none, none⟩)], []⟩, []⟩,
             ⟨0, "ok", .obj [("id", .str "A"), ("label", .str "A"),
                             ("entity_type", .null), ("description", .null),
                             ("source_id", .null), ("entity_name", .str "A2")]⟩)
    ∧ ¬ ((JsonVal.obj [("id", .str "A"), ("label", .str "A"),
                       ("entity_type", .null), ("description", .null),
                       ("source_id", .null), ("entity_name", .str "A2")]).lookup "id"
          = some (.str "A2")) := by
  constructor
  · rfl
  · simp [JsonVal.lookup]

/-- C1 amended: every successful UpdateEntity call returns data of shape
id, label, then the payload fields, where label equals id and id always
equals the request path parameter `entityName` — also when the payload
requests a rename. -/
theorem update_entity_id_label (st : RagState) (n : String) (ed : EntityData)
    (st1 : RagState) (resp : DataResponse)
    (h : graph_routes.update_entity st n ed = .ok (st1, resp)) :
    resp.data.lookup "id" = some (.str n) ∧ resp.data.lookup "label" = some (.str n) := by
  unfold graph_routes.update_entity graph_routes.update_entity_run at h
  cases haedit : aedit_entity st.graph n (graph_routes.mkNodeData ed) with
  | error e => rw [haedit] at h; cases h
  | ok g1 =>
    rw [haedit] at h
    simp only [Except.ok.injEq, Prod.mk.injEq] at h
    obtain ⟨-, hresp⟩ := h
    subst hresp
    constructor <;> simp [graph_routes.updateEntityData, JsonVal.lookup]

/-- Witness for the amended C1 theorem at a concrete successful call. -/
theorem update_entity_id_label_witness :
    (JsonVal.obj [("id", .str "X"), ("label", .str "X"),
                  ("entity_type", .null), ("description", .null),
                  ("source_id", .null)]).lookup "id" = some (.str "X")
    ∧ (JsonVal.obj [("id", .str "X"), ("label", .str "X"),
                    ("entity_type", .null), ("description", .null),
                    ("source_id", .null)]).lookup "label" = some (.str "X") :=
  update_entity_id_label ⟨⟨[], []⟩, []⟩ "X" ⟨none, none, none, none⟩
    ⟨⟨[("X", ⟨none, none, none⟩)], []⟩, []⟩
    ⟨0, "ok", .obj [("id", .str "X"), ("label", .str "X"),
                    ("entity_type", .null), ("description", .null),
                    ("source_id", .null)]⟩ rfl

/-- C10: every successful UpdateEntity response carries the keys
entity_type, description and source_id — each null exactly when the request
omitted the field — and carries an entity_name key exactly when the request
held a truthy (non-empty) entity_name. -/
theorem update_entity_data_keys (st : RagState) (n : String) (ed : EntityData)
    (st1 : RagState) (resp : DataResponse)
    (h : graph_routes.update_entity st n ed = .ok (st1, resp)) :
    resp.data.lookup "entity_type" = some (jsonOfOptStr ed.entity_type)
    ∧ resp.data.lookup "description" = some (jsonOfOptStr ed.description)
    ∧ resp.data.lookup "source_id" = some (jsonOfOptStr ed.source_id)
    ∧ (resp.data.lookup "entity_name").isSome = isTruthy ed.entity_name := by
  unfold graph_routes.update_entity graph_routes.update_entity_run at h
  cases haedit : aedit_entity st.graph n (graph_routes.mkNodeData ed) with
  | error e => rw [haedit] at h; cases h
  | ok g1 =>
    rw [haedit] at h
    simp only [Except.ok.injEq, Prod.mk.injEq] at h
    obtain ⟨-, hresp⟩ := h
    subst hresp
    refine ⟨?_, ?_, ?_, ?_⟩ <;>
      simp only [graph_routes.updateEntityData, graph_routes.mkNodeData, JsonVal.lookup] <;>
      cases htr : isTruthy ed.entity_name <;>
      cases hen : ed.entity_name <;>
      simp_all [isTruthy, JsonVal.lookup]

/-- Witness for the C10 theorem at a concrete successful call. -/
theorem update_entity_data_keys_witness :
    (JsonVal.obj [("id", .str "X"), ("label", .str "X"),
                  ("entity_type", .str "t"), ("description", .null),
                  ("source_id", .null)]).lookup "entity_type"
        = some (jsonOfOptStr (some "t"))
    ∧ (JsonVal.obj [("id", .str "X"), ("label", .str "X"),
                    ("entity_type", .str "t"), ("description", .null),
                    ("source_id", .null)]).lookup "description"
        = some (jsonOfOptStr none)
    ∧ (JsonVal.obj [("id", .str "X"), ("label", .str "X"),
                    ("entity_type", .str "t"), ("description", .null),
                    ("source_id", .null)]).lookup "source_id"
        = some (jsonOfOptStr none)
    ∧ ((JsonVal.obj [("id", .str "X"), ("label", .str "X"),
                     ("entity_type", .str "t"), ("description", .null),
                     ("source_id", .null)]).lookup "entity_name").isSome
        = isTruthy (none : Option String) :=
  update_entity_data_keys ⟨⟨[], []⟩, []⟩ "X" ⟨none, some "t", none, none⟩
    ⟨⟨[("X", ⟨some "t", none, none⟩)], []⟩, []⟩
    ⟨0, "ok", .obj [("id", .str "X"), ("label", .str "X"),
                    ("entity_type", .str "t"), ("description", .null),
                    ("source_id", .null)]⟩ rfl

/-- C4: within every execution of DeleteRelationByNodes the store calls
occur in the fixed order vector-delete, edge-removal, vector commit, graph
commit — the trace is always an initial segment of that sequence — and a
success result is returned only when all four calls, both commit barriers
included, have completed. -/
theorem delete_relation_by_nodes_call_order (src tgt : String)
    (o : graph_routes.DeleteRelationOutcomes) :
    ((graph_routes.delete_relation_by_nodes_run src tgt o).1
        = (graph_routes.deleteRelationEvents src tgt).take 1
     ∨ (graph_routes.delete_relation_by_nodes_run src tgt o).1
        = (graph_routes.deleteRelationEvents src tgt).take 2
     ∨ (graph_routes.delete_relation_by_nodes_run src tgt o).1
        = (graph_routes.deleteRelationEvents src tgt).take 3
     ∨ (graph_routes.delete_relation_by_nodes_run src tgt o).1
        = graph_routes.deleteRelationEvents src tgt)
    ∧ (∀ resp, (graph_routes.delete_relation_by_nodes_run src tgt o).2 = .ok resp →
        (graph_routes.delete_relation_by_nodes_run src tgt o).1
          = graph_routes.deleteRelationEvents src tgt) := by
  obtain ⟨r1, r2, r3, r4⟩ := o
  cases r1 <;> cases r2 <;> cases r3 <;> cases r4 <;>
    simp [graph_routes.delete_relation_by_nodes_run, graph_routes.deleteRelationEvents]

/-- Witness for the C4 theorem: an all-successful run emits the complete
event sequence. -/
theorem delete_relation_by_nodes_call_order_witness :
    (graph_routes.delete_relation_by_nodes_run "s" "t" ⟨.ok (), .ok (), .ok (), .ok ()⟩).1
      = graph_routes.deleteRelationEvents "s" "t" :=
  (delete_relation_by_nodes_call_order "s" "t" ⟨.ok (), .ok (), .ok (), .ok ()⟩).2
    ⟨0, "ok", .str ""⟩ rfl

/-- C5 counterexample: a store exception with message "boom" makes both the
UpdateEntity and the DeleteRelationByNodes handler raise exactly
HTTPException(500, "boom"); the detail carries only the original cause and
does not mention the operation name, so the error cannot carry it — two
different operations raise identical errors. The claim that the propagated
error carries the operation name fails here. -/
theorem error_lacks_operation_name :
    graph_routes.update_entity_run ⟨⟨[], []⟩, []⟩ "A" ⟨none, none, none, none⟩
        (.error (.exc "boom"))
      = .error ⟨500, "boom"⟩
    ∧ (graph_routes.delete_relation_by_nodes_run "s" "t"
        ⟨.error (.exc "boom"), .ok (), .ok (), .ok ()⟩).2
      = .error ⟨500, "boom"⟩
    ∧ containsSubstr "boom" "update_entity" = false
    ∧ containsSubstr "boom" "delete_relation_by_nodes" = false := by
  refine ⟨rfl, rfl, ?_, ?_⟩ <;> decide

/-- C5 amended: for every operation, mutating or read, whenever any of its
underlying store calls raises, the handler does not catch-and-continue or
retry: it re-raises exactly one HTTPException(500, str(cause)) — carrying
the original cause's message but not the operation name — and returns no
success envelope. For DeleteRelationByNodes this holds at each of its four
store calls (vector delete, remove_edges, and both index_done_callback
barriers): the first call that raises aborts the rest of the body and its
cause is the one propagated. -/
theorem store_error_propagates (st : RagState) (n : String) (ed : EntityData)
    (src tgt : String) (rd : RelationData) (ex : StoreExc)
    (r2 r3 r4 : Except StoreExc Unit) :
    graph_routes.update_entity_run st n ed (.error ex) = .error ⟨500, ex.str⟩
    ∧ graph_routes.delete_entity_run st n (.error ex) = .error ⟨500, ex.str⟩
    ∧ graph_routes.update_relation_by_nodes_run st src tgt rd (.error ex)
        = .error ⟨500, ex.str⟩
    ∧ (graph_routes.delete_relation_by_nodes_run src tgt ⟨.error ex, r2, r3, r4⟩).2
        = .error ⟨500, ex.str⟩
    ∧ (graph_routes.delete_relation_by_nodes_run src tgt ⟨.ok (), .error ex, r3, r4⟩).2
        = .error ⟨500, ex.str⟩
    ∧ (graph_routes.delete_relation_by_nodes_run src tgt ⟨.ok (), .ok (), .error ex, r4⟩).2
        = .error ⟨500, ex.str⟩
    ∧ (graph_routes.delete_relation_by_nodes_run src tgt ⟨.ok (), .ok (), .ok (), .error ex⟩).2
        = .error ⟨500, ex.str⟩
    ∧ graph_routes.get_node_run (.error ex) = .error ⟨500, ex.str⟩
    ∧ graph_routes.get_relation_by_nodes_run (.error ex) = .error ⟨500, ex.str⟩
    ∧ graph_routes.get_relation_by_node_run (.error ex) = .error ⟨500, ex.str⟩
    ∧ graph_routes.get_graph_entity_list_run (.error ex) = .error ⟨500, ex.str⟩
    ∧ graph_routes.get_graph_data_run (.error ex) = .error ⟨500, ex.str⟩ :=
  ⟨rfl, rfl, rfl, rfl, rfl, rfl, rfl, rfl, rfl, rfl, rfl, rfl⟩

/-- C6: point lookups on absent nodes and absent edges succeed with code 0
and a null data payload; absence is never signaled as an error. -/
theorem absent_lookups_return_success (st : RagState) (n src tgt : String)
    (h1 : st.graph.get_node n = none) (h2 : st.graph.get_edge src tgt = none) :
    graph_routes.get_node st n = .ok ⟨0, "ok", .null⟩
    ∧ graph_routes.get_relation_by_nodes st src tgt = .ok ⟨0, "ok", .null⟩ := by
  constructor
  · simp [graph_routes.get_node, h1, jsonOfOptEntity]
  · simp [graph_routes.get_relation_by_nodes, h2, jsonOfOptEdge]

/-- Witness for the C6 theorem on the empty store. -/
theorem absent_lookups_return_success_witness :
    graph_routes.get_node ⟨⟨[], []⟩, []⟩ "a" = .ok ⟨0, "ok", .null⟩
    ∧ graph_routes.get_relation_by_nodes ⟨⟨[], []⟩, []⟩ "a" "b" = .ok ⟨0, "ok", .null⟩ :=
  absent_lookups_return_success ⟨⟨[], []⟩, []⟩ "a" "a" "b" rfl rfl

/-- C3: after a successful DeleteRelationByNodes(src, tgt), the vector
index holds no entry for the composite key of (src, tgt) and the graph
store holds no (src, tgt) edge — both convergence conditions hold
together. -/
theorem delete_relation_converges (st : RagState) (src tgt : String)
    (st1 : RagState) (resp : DataResponse)
    (h : graph_routes.delete_relation_by_nodes st src tgt = .ok (st1, resp)) :
    compositeKey src tgt ∉ st1.vdb ∧ st1.graph.get_edge src tgt = none := by
  unfold graph_routes.delete_relation_by_nodes at h
  simp only [Except.ok.injEq, Prod.mk.injEq] at h
  obtain ⟨hst, -⟩ := h
  subst hst
  constructor
  · intro hmem
    have hp := (List.mem_filter.mp hmem).2
    simp [vdbDeleteRelationByNodes, vdbDelete] at hp
  · unfold GraphStore.get_edge GraphStore.remove_edges
    rw [Option.map_eq_none']
    rw [List.find?_eq_none]
    intro e he hpe
    have hp := (List.mem_filter.mp he).2
    simp only [Bool.and_eq_true, beq_iff_eq] at hpe
    obtain ⟨h1, h2⟩ := hpe
    simp [List.contains, h1, h2] at hp

/-- Witness for the C3 theorem at a concrete store holding the edge and its
vector entry. -/
theorem delete_relation_converges_witness :
    compositeKey "a" "b" ∉
      ({ graph := ⟨[("a", ⟨none, none, none⟩)], []⟩, vdb := [] } : RagState).vdb
    ∧ ({ graph := ⟨[("a", ⟨none, none, none⟩)], []⟩, vdb := [] } : RagState).graph.get_edge
        "a" "b" = none :=
  delete_relation_converges
    ⟨⟨[("a", ⟨none, none, none⟩)], [("a", "b", ⟨none, none, none, none⟩)]⟩, ["a_b"]⟩
    "a" "b"
    ⟨⟨[("a", ⟨none, none, none⟩)], []⟩, []⟩ ⟨0, "ok", .str ""⟩ rfl

/-- Helper: updating the entries keyed `id` in an association list commutes
with looking `id` up. -/
theorem find?_nodes_update (l : List (String × EntityFields)) (id : String) (nd : NodeData) :
    (l.map (fun p => if p.1 == id then (id, p.2.merge nd) else p)).find? (fun p => p.1 == id)
      = (l.find? (fun p => p.1 == id)).map (fun p => (id, p.2.merge nd)) := by
  induction l with
  | nil => rfl
  | cons hd tl ih =>
    rw [List.map_cons]
    cases hc : (hd.1 == id) with
    | true =>
      rw [if_pos rfl, List.find?_cons_of_pos _ (by simp)]
      simp [List.find?_cons, hc]
    | false =>
      rw [if_neg (by simp)]
      simp only [List.find?_cons, hc]
      exact ih

/-- Helper: an upsert makes the looked-up record the merge of the previous
record (or of the empty record on creation) with the payload. -/
theorem get_node_upsert_self (g : GraphStore) (id : String) (nd : NodeData) :
    (g.upsertNode id nd).get_node id
      = some (((g.get_node id).getD EntityFields.empty).merge nd) := by
  cases hget : g.get_node id with
  | none =>
    have hfind : g.nodes.find? (fun p => p.1 == id) = none := by
      have h1 : (g.nodes.find? (fun p => p.1 == id)).map (fun p => p.2) = none := hget
      exact Option.map_eq_none'.mp h1
    unfold GraphStore.upsertNode
    rw [hget]
    show ((g.nodes ++ [(id, EntityFields.empty.merge nd)]).find?
        (fun p => p.1 == id)).map (fun p => p.2) = _
    rw [List.find?_append, hfind]
    simp
  | some f =>
    have h1 : (g.nodes.find? (fun p => p.1 == id)).map (fun p => p.2) = some f := hget
    obtain ⟨q, hq, hq2⟩ := Option.map_eq_some'.mp h1
    unfold GraphStore.upsertNode
    rw [hget]
    show ((g.nodes.map (fun p => if p.1 == id then (id, p.2.merge nd) else p)).find?
        (fun p => p.1 == id)).map (fun p => p.2) = _
    rw [find?_nodes_update, hq]
    simp [hq2]

/-- C8: a partial update through UpdateEntity leaves fields absent from the
payload unchanged: after a record with entity_type t1 and description d1,
updating only the description to d2 keeps entity_type t1 (and the stored
source_id), and sets description to d2. -/
theorem update_entity_partial_merge (st : RagState) (X t1 d1 d2 : String) (s0 : Option String)
    (h : st.graph.get_node X = some ⟨some t1, some d1, s0⟩) :
    graph_routes.update_entity st X ⟨none, none, some d2, none⟩
      = .ok ({ st with graph := st.graph.upsertNode X ⟨none, some d2, none, none⟩ },
             ⟨0, "ok", graph_routes.updateEntityData X ⟨none, some d2, none, none⟩⟩)
    ∧ (st.graph.upsertNode X ⟨none, some d2, none, none⟩).get_node X
        = some ⟨some t1, some d2, s0⟩ := by
  constructor
  · rfl
  · rw [get_node_upsert_self, h]
    rfl

/-- Witness for the C8 theorem at a concrete prior record. -/
theorem update_entity_partial_merge_witness :
    graph_routes.update_entity ⟨⟨[("X", ⟨some "t1", some "d1", none⟩)], []⟩, []⟩ "X"
        ⟨none, none, some "d2", none⟩
      = .ok ({ graph := GraphStore.upsertNode ⟨[("X", ⟨some "t1", some "d1", none⟩)], []⟩
                 "X" ⟨none, some "d2", none, none⟩, vdb := [] },
             ⟨0, "ok", graph_routes.updateEntityData "X" ⟨none, some "d2", none, none⟩⟩)
    ∧ (GraphStore.upsertNode ⟨[("X", ⟨some "t1", some "d1", none⟩)], []⟩ "X"
        ⟨none, some "d2", none, none⟩).get_node "X"
        = some ⟨some "t1", some "d2", none⟩ :=
  update_entity_partial_merge ⟨⟨[("X", ⟨some "t1", some "d1", none⟩)], []⟩, []⟩
    "X" "t1" "d1" "d2" none rfl

/-- Helper: the composite-key deletion fold only ever removes vector keys. -/
theorem mem_foldl_vdbDelete (l : List (String × String)) (acc : List String) (a : String)
    (h : a ∈ l.foldl (fun acc p => vdbDelete acc (compositeKey p.1 p.2)) acc) : a ∈ acc := by
  induction l generalizing acc with
  | nil => exact h
  | cons hd tl ih =>
    have h2 := ih (vdbDelete acc (compositeKey hd.1 hd.2)) h
    exact (List.mem_filter.mp h2).1

/-- C9: DeleteEntity is idempotent: every call returns the success envelope,
a second delete of the same name leaves the state exactly as after the
first, and deleting a non-existent entity (no record, no incident edges, no
vector entry) is a no-op. -/
theorem delete_entity_idempotent (st : RagState) (x : String) :
    graph_routes.delete_entity st x = .ok (adelete_by_entity st x, ⟨0, "ok", .null⟩)
    ∧ adelete_by_entity (adelete_by_entity st x) x = adelete_by_entity st x
    ∧ (st.graph.get_node x = none → st.graph.get_node_edges x = [] → x ∉ st.vdb →
        adelete_by_entity st x = st) := by
  obtain ⟨⟨ns, es⟩, v⟩ := st
  refine ⟨rfl, ?_, ?_⟩
  · simp only [adelete_by_entity, GraphStore.removeNode, RagState.mk.injEq,
      GraphStore.mk.injEq]
    refine ⟨⟨?_, ?_⟩, ?_⟩
    · rw [List.filter_filter]
      simp
    · rw [List.filter_filter]
      simp
    · have hcas : ((es.filter (fun e => !(e.1 == x || e.2.1 == x))).filter
          (fun e => e.1 == x || e.2.1 == x)) = [] := by
        rw [List.filter_filter]
        simp only [Bool.and_not_self]
        exact List.filter_false _
      rw [hcas]
      simp only [List.map_nil, List.foldl_nil]
      apply List.filter_eq_self.mpr
      intro a ha
      have h1 := mem_foldl_vdbDelete _ _ _ ha
      exact (List.mem_filter.mp h1).2
  · intro h1 h2 h3
    simp only [adelete_by_entity, GraphStore.removeNode, RagState.mk.injEq,
      GraphStore.mk.injEq]
    have hfind : ns.find? (fun p => p.1 == x) = none := by
      have h1' : (ns.find? (fun p => p.1 == x)).map (fun p => p.2) = none := h1
      exact Option.map_eq_none'.mp h1'
    have hcas : es.filter (fun e => e.1 == x || e.2.1 == x) = [] := h2
    refine ⟨⟨?_, ?_⟩, ?_⟩
    · apply List.filter_eq_self.mpr
      intro p hp
      have := List.find?_eq_none.mp hfind p hp
      simpa using this
    · apply List.filter_eq_self.mpr
      intro e he
      have := List.filter_eq_nil_iff.mp hcas e he
      simpa using this
    · rw [hcas]
      simp only [List.map_nil, List.foldl_nil]
      apply List.filter_eq_self.mpr
      intro a ha
      have : a ≠ x := by
        intro heq
        exact h3 (heq ▸ ha)
      simpa using this

/-- Witness for the C9 theorem on a store where the entity is absent. -/
theorem delete_entity_idempotent_witness :
    graph_routes.delete_entity ⟨⟨[], []⟩, []⟩ "x"
      = .ok (adelete_by_entity ⟨⟨[], []⟩, []⟩ "x", ⟨0, "ok", .null⟩)
    ∧ adelete_by_entity (adelete_by_entity ⟨⟨[], []⟩, []⟩ "x") "x"
      = adelete_by_entity ⟨⟨[], []⟩, []⟩ "x"
    ∧ adelete_by_entity ⟨⟨[], []⟩, []⟩ "x" = ⟨⟨[], []⟩, []⟩ :=
  ⟨(delete_entity_idempotent ⟨⟨[], []⟩, []⟩ "x").1,
   (delete_entity_idempotent ⟨⟨[], []⟩, []⟩ "x").2.1,
   (delete_entity_idempotent ⟨⟨[], []⟩, []⟩ "x").2.2 rfl rfl (by simp)⟩

/-- Helper: a disjunctive search whose right disjunct never fires reduces to
the left disjunct. -/
theorem find?_or_of_none {α : Type} (l : List α) (p q : α → Bool)
    (hq : l.find? q = none) : l.find? (fun a => p a || q a) = l.find? p := by
  induction l with
  | nil => rfl
  | cons hd tl ih =>
    have h1 : ∀ a ∈ hd :: tl, ¬ q a := List.find?_eq_none.mp hq
    have hqh : q hd = false := by
      have := h1 hd (List.mem_cons_self hd tl)
      simpa using this
    have htl : tl.find? q = none :=
      List.find?_eq_none.mpr (fun a ha => h1 a (List.mem_cons_of_mem _ ha))
    cases hph : p hd with
    | true => simp [List.find?_cons, hph, hqh]
    | false => simp [List.find?_cons, hph, hqh, ih htl]

/-- C7: a successful rename of entity A to a fresh name A2 migrates the
A-to-B edge: A2 is present with A's fields, A is absent, the (A2, B) edge
carries exactly the original edge's non-identity fields, and no edge in the
store remains keyed on the renamed-away name A at either endpoint. -/
theorem update_entity_rename_preserves_edges
    (st : RagState) (A A2 B : String) (af : EntityFields) (ef : EdgeFields)
    (hA2A : A2 ≠ A) (hA2B : A2 ≠ B) (hAB : A ≠ B) (hA2ne : A2 ≠ "")
    (hnA : st.graph.get_node A = some af)
    (hnA2 : st.graph.get_node A2 = none)
    (heAB : st.graph.get_edge A B = some ef)
    (heA2B : st.graph.get_edge A2 B = none) :
    ∃ st1 resp, graph_routes.update_entity st A ⟨some A2, none, none, none⟩ = .ok (st1, resp)
      ∧ st1.graph.get_node A2 = some af
      ∧ st1.graph.get_node A = none
      ∧ st1.graph.get_edge A2 B = some ef
      ∧ ∀ e ∈ st1.graph.edges, e.1 ≠ A ∧ e.2.1 ≠ A := by
  have hA2Bb : (A2 == B) = false := beq_eq_false_iff_ne.mpr hA2B
  have hABb : (A == B) = false := beq_eq_false_iff_ne.mpr hAB
  have hAA2b : (A == A2) = false := beq_eq_false_iff_ne.mpr (fun h => hA2A h.symm)
  have hfA2 : st.graph.nodes.find? (fun p => p.1 == A2) = none :=
    Option.map_eq_none'.mp hnA2
  -- the graph after the rename step
  have hren : st.graph.renameNode A A2 = .ok
      ⟨st.graph.nodes.filter (fun p => p.1 != A) ++ [(A2, af)],
       st.graph.edges.map (fun e =>
         ((if e.1 == A then A2 else e.1), (if e.2.1 == A then A2 else e.2.1), e.2.2))⟩ := by
    unfold GraphStore.renameNode
    rw [hnA2, hnA]
    rfl
  set gr : GraphStore :=
    ⟨st.graph.nodes.filter (fun p => p.1 != A) ++ [(A2, af)],
     st.graph.edges.map (fun e =>
       ((if e.1 == A then A2 else e.1), (if e.2.1 == A then A2 else e.2.1), e.2.2))⟩ with hgr
  -- looking up A2 in the renamed store finds A's old record
  have hgrfind : gr.nodes.find? (fun p => p.1 == A2) = some (A2, af) := by
    rw [hgr]
    rw [List.find?_append]
    have hL : (st.graph.nodes.filter (fun p => p.1 != A)).find? (fun p => p.1 == A2)
        = none := by
      rw [List.find?_eq_none]
      intro p hp
      exact List.find?_eq_none.mp hfA2 p (List.mem_filter.mp hp).1
    rw [hL]
    simp [List.find?_cons]
  have hgrnode : gr.get_node A2 = some af := by
    show (gr.nodes.find? (fun p => p.1 == A2)).map (fun p => p.2) = some af
    rw [hgrfind]
    rfl
  -- the upsert after the rename rewrites only the A2 entry
  have hups : gr.upsertNode A2 ⟨none, none, none, some A2⟩
      = ⟨gr.nodes.map (fun p =>
          if p.1 == A2 then (A2, p.2.merge ⟨none, none, none, some A2⟩) else p),
         gr.edges⟩ := by
    unfold GraphStore.upsertNode
    rw [hgrnode]
  set g2 : GraphStore :=
    ⟨gr.nodes.map (fun p =>
        if p.1 == A2 then (A2, p.2.merge ⟨none, none, none, some A2⟩) else p),
     gr.edges⟩ with hg2
  -- the whole handler runs the rename branch and succeeds
  have htr : isTruthy (some A2) = true := by simp [isTruthy, hA2ne]
  have hnd : graph_routes.mkNodeData ⟨some A2, none, none, none⟩
      = ⟨none, none, none, some A2⟩ := by
    simp [graph_routes.mkNodeData, htr]
  have haedit : aedit_entity st.graph A (graph_routes.mkNodeData ⟨some A2, none, none, none⟩)
      = .ok g2 := by
    rw [hnd]
    show (if A2 ≠ A then
        (match st.graph.renameNode A A2 with
         | Except.error e => Except.error e
         | Except.ok g1 =>
             Except.ok (g1.upsertNode A2 (⟨none, none, none, some A2⟩ : NodeData))
         : Except StoreExc GraphStore)
      else Except.ok (st.graph.upsertNode A (⟨none, none, none, some A2⟩ : NodeData)))
      = Except.ok g2
    rw [if_pos hA2A, hren]
    show Except.ok (gr.upsertNode A2 (⟨none, none, none, some A2⟩ : NodeData))
      = (Except.ok g2 : Except StoreExc GraphStore)
    rw [hups]
  have hupdate : graph_routes.update_entity st A ⟨some A2, none, none, none⟩
      = .ok ({ st with graph := g2 },
             ⟨0, "ok", graph_routes.updateEntityData A
                (graph_routes.mkNodeData ⟨some A2, none, none, none⟩)⟩) := by
    unfold graph_routes.update_entity graph_routes.update_entity_run
    rw [haedit]
  refine ⟨{ st with graph := g2 },
    ⟨0, "ok", graph_routes.updateEntityData A
      (graph_routes.mkNodeData ⟨some A2, none, none, none⟩)⟩, hupdate, ?_, ?_, ?_, ?_⟩
  · -- GetEntity(A2) is present with A's fields
    show (g2.nodes.find? (fun p => p.1 == A2)).map (fun p => p.2) = some af
    rw [hg2]
    rw [find?_nodes_update, hgrfind]
    rfl
  · -- GetEntity(A) is absent
    show (g2.nodes.find? (fun p => p.1 == A)).map (fun p => p.2) = none
    rw [Option.map_eq_none']
    rw [List.find?_eq_none]
    intro p hp
    rw [hg2] at hp
    obtain ⟨p0, hp0, rfl⟩ := List.mem_map.mp hp
    rw [hgr] at hp0
    rcases List.mem_append.mp hp0 with hp1 | hp1
    · have hne : (p0.1 != A) = true := (List.mem_filter.mp hp1).2
      cases hc : p0.1 == A2 with
      | true => simp [hc, hAA2b, hA2A]
      | false =>
        simp only [hc, if_false, Bool.false_eq_true]
        simpa using hne
    · have : p0 = (A2, af) := by simpa using hp1
      subst this
      simp [hAA2b, hA2A]
  · -- the migrated edge (A2, B) carries the original fields
    show (g2.edges.find? (fun e => e.1 == A2 && e.2.1 == B)).map (fun e => e.2.2) = some ef
    have hefind : st.graph.edges.find? (fun e => e.1 == A && e.2.1 == B)
        = (st.graph.edges.find? (fun e => e.1 == A && e.2.1 == B)) := rfl
    obtain ⟨e0, he0, he02⟩ := Option.map_eq_some'.mp heAB
    have hqnone : st.graph.edges.find? (fun e => e.1 == A2 && e.2.1 == B) = none :=
      Option.map_eq_none'.mp heA2B
    rw [hg2]
    show ((gr.edges.find? (fun e => e.1 == A2 && e.2.1 == B)).map (fun e => e.2.2)) = some ef
    rw [hgr]
    rw [List.find?_map]
    have hpred : ((fun e : String × String × EdgeFields => e.1 == A2 && e.2.1 == B) ∘
        (fun e : String × String × EdgeFields =>
          ((if e.1 == A then A2 else e.1), (if e.2.1 == A then A2 else e.2.1), e.2.2)))
        = fun e => (e.1 == A && e.2.1 == B) || (e.1 == A2 && e.2.1 == B) := by
      funext e
      show ((if e.1 == A then A2 else e.1) == A2 && ((if e.2.1 == A then A2 else e.2.1) == B))
          = ((e.1 == A && e.2.1 == B) || (e.1 == A2 && e.2.1 == B))
      cases h1 : e.1 == A with
      | false =>
        cases h2 : e.2.1 == A with
        | false => simp [h1, h2]
        | true =>
          have he2 : e.2.1 = A := by simpa using h2
          simp [h1, h2, he2, hABb, hA2Bb]
      | true =>
        have he1 : e.1 = A := by simpa using h1
        cases h2 : e.2.1 == A with
        | false => simp [h1, h2, he1, hAA2b]
        | true =>
          have he2 : e.2.1 = A := by simpa using h2
          simp [h1, h2, he1, he2, hA2Bb, hABb, hAA2b]
    rw [hpred]
    rw [find?_or_of_none _ _ _ hqnone]
    rw [he0]
    simp [he02]
  · -- no edge remains keyed on A at either endpoint
    intro e he
    rw [hg2] at he
    rw [hgr] at he
    obtain ⟨e0, he0, rfl⟩ := List.mem_map.mp he
    constructor
    · cases hc : e0.1 == A with
      | true => simpa [hc] using hA2A
      | false =>
        simp only [hc, if_false, Bool.false_eq_true]
        simpa using hc
    · cases hc : e0.2.1 == A with
      | true => simpa [hc] using hA2A
      | false =>
        simp only [hc, if_false, Bool.false_eq_true]
        simpa using hc

/-- Witness for the C7 theorem on a concrete two-node store with one edge. -/
theorem update_entity_rename_preserves_edges_witness :
    ∃ st1 resp,
      graph_routes.update_entity
          ⟨⟨[("A", ⟨none, none, none⟩), ("B", ⟨none, none, none⟩)],
            [("A", "B", ⟨some 1, none, none, none⟩)]⟩, []⟩ "A"
          ⟨some "A2", none, none, none⟩ = .ok (st1, resp)
      ∧ st1.graph.get_node "A2" = some ⟨none, none, none⟩
      ∧ st1.graph.get_node "A" = none
      ∧ st1.graph.get_edge "A2" "B" = some ⟨some 1, none, none, none⟩
      ∧ ∀ e ∈ st1.graph.edges, e.1 ≠ "A" ∧ e.2.1 ≠ "A" :=
  update_entity_rename_preserves_edges
    ⟨⟨[("A", ⟨none, none, none⟩), ("B", ⟨none, none, none⟩)],
      [("A", "B", ⟨some 1, none, none, none⟩)]⟩, []⟩
    "A" "A2" "B" ⟨none, none, none⟩ ⟨some 1, none, none, none⟩
    (by decide) (by decide) (by decide) (by decide) rfl rfl rfl rfl
